import Mathlib

/-!
Shallow embedding of the Academic Integrity Analysis Engine
(backend/services/aiService.js, backend/services/deepseekService.js,
backend/controllers/uploadController.js and its enhanced variant).

Text is modelled as `List Char` (ASCII behaviour of the JS string
operations), numbers as `ℚ`/`ℤ`/`ℕ`, and the similarity value as `ℝ`.
-/

namespace Acad

/-- JS `\s` whitespace, ASCII subset. -/
def jsIsSpace (c : Char) : Bool :=
  c = ' ' || c = '\t' || c = '\n' || c = '\r' || c = '\x0b' || c = '\x0c'

/-- JS `String.prototype.split` on a one-character-class regex with `+`
(e.g. `/\s+/`, `/[.!?]+/`): splits at maximal runs of characters
satisfying `p`, keeping the empty fragments JS produces at the ends. -/
def jsSplitRuns (p : Char → Bool) : List Char → List (List Char)
  | [] => [[]]
  | c :: rest =>
    let r := jsSplitRuns p rest
    if p c then
      match rest with
      | [] => [] :: r
      | d :: _ => if p d then r else [] :: r
    else
      match r with
      | g :: gs => (c :: g) :: gs
      | [] => [[c]]

/-- JS `String.prototype.split` on a single literal character (`text.split('\n')`). -/
def jsSplitChar (sep : Char) : List Char → List (List Char)
  | [] => [[]]
  | c :: rest =>
    let r := jsSplitChar sep rest
    if c = sep then [] :: r
    else
      match r with
      | g :: gs => (c :: g) :: gs
      | [] => [[c]]

/-- JS `String.prototype.trim` (ASCII whitespace). -/
def trimChars (s : List Char) : List Char :=
  ((s.dropWhile (fun c => jsIsSpace c)).reverse.dropWhile (fun c => jsIsSpace c)).reverse

/-! ### A small regex interpreter

The regexes in the source only quantify single-character classes, so a
pattern is a sequence of items; quantifiers backtrack greedily exactly as
the JS engine does on these patterns. -/

/-- The character classes appearing in the source regexes (`\d`, `\s`,
`[^\s]`, `\w`, and `[A-Z]`/`[a-z]` under the `i` flag). -/
inductive CharClass where
  | digit | space | nonspace | wordc | alpha
deriving DecidableEq

def CharClass.test : CharClass → Char → Bool
  | .digit, c => c.isDigit
  | .space, c => jsIsSpace c
  | .nonspace, c => !jsIsSpace c
  | .wordc, c => c.isAlphanum || c = '_'
  | .alpha, c => c.isAlpha

/-- One item of a pattern. -/
inductive RItem where
  | str (cs : List Char)
  | opt (c : Char)
  | cls (k : CharClass)
  | star (k : CharClass)
  | plus (k : CharClass)
  | rep (n : Nat) (k : CharClass)
  | alts (ws : List (List Char))

abbrev Pat := List RItem

/-- Strip a literal off the front of `s`. -/
def chopLit : List Char → List Char → Option (List Char)
  | [], s => some s
  | _ :: _, [] => none
  | c :: cs, x :: s => if x = c then chopLit cs s else none

/-- Consume exactly `n` characters of class `k`. -/
def repChop (k : CharClass) : Nat → List Char → Option (List Char)
  | 0, s => some s
  | _ + 1, [] => none
  | n + 1, c :: s => if k.test c then repChop k n s else none

/-- Greedy backtracking for `*`: try consuming `n` characters (already
known to be in the class), longest first. -/
def starLoop (f : List Char → Option (List Char)) (s : List Char) : Nat → Option (List Char)
  | 0 => f s
  | n + 1 =>
    match f (s.drop (n + 1)) with
    | some r => some r
    | none => starLoop f s n

/-- Alternation `(?:w₁|w₂|…)`, first alternative wins, with backtracking. -/
def altsLoop (f : List Char → Option (List Char)) (s : List Char) :
    List (List Char) → Option (List Char)
  | [] => none
  | w :: ws =>
    match chopLit w s with
    | some r =>
      match f r with
      | some out => some out
      | none => altsLoop f s ws
    | none => altsLoop f s ws

/-- Match a pattern at the start of `s`; returns the remainder on success. -/
def matchHere : Pat → List Char → Option (List Char)
  | [], s => some s
  | .str cs :: ps, s => (chopLit cs s).bind (matchHere ps)
  | .opt c :: ps, s =>
    match s with
    | [] => matchHere ps []
    | x :: rest =>
      if x = c then
        match matchHere ps rest with
        | some r => some r
        | none => matchHere ps s
      else matchHere ps s
  | .cls k :: ps, s =>
    match s with
    | [] => none
    | c :: rest => if k.test c then matchHere ps rest else none
  | .star k :: ps, s => starLoop (matchHere ps) s (s.takeWhile k.test).length
  | .plus k :: ps, s =>
    match s with
    | [] => none
    | c :: rest =>
      if k.test c then starLoop (matchHere ps) rest (rest.takeWhile k.test).length
      else none
  | .rep n k :: ps, s => (repChop k n s).bind (matchHere ps)
  | .alts ws :: ps, s => altsLoop (matchHere ps) s ws

/-- Count non-overlapping matches left to right (JS `str.match(/…/g).length`):
advance past each match, or by one character where no match starts. -/
def countFrom (pat : Pat) : Nat → List Char → Nat
  | 0, _ => 0
  | _ + 1, [] => match matchHere pat [] with | some _ => 1 | none => 0
  | fuel + 1, s@(_ :: rest) =>
    match matchHere pat s with
    | some r =>
      1 + (if r.length < s.length then countFrom pat fuel r else countFrom pat fuel rest)
    | none => countFrom pat fuel rest

def countMatches (pat : Pat) (s : List Char) : Nat :=
  countFrom pat (s.length + 1) s

/-! ### The plagiarism scorer tables (uploadController, enhanced variant) -/

structure Indicator where
  pat : Pat
  weight : Nat
  description : String

/-- The regex `/copyright\s*©?\s*\d{4}/gi`. -/
def copyrightPat : Pat :=
  [.str "copyright".toList, .star .space, .opt '©', .star .space, .rep 4 .digit]

/-- The regex `/all\s+rights\s+reserved/gi`. -/
def allRightsPat : Pat :=
  [.str "all".toList, .plus .space, .str "rights".toList, .plus .space, .str "reserved".toList]

/-- The eight `definiteIndicators` regexes. -/
def definiteIndicators : List Indicator := [
  ⟨copyrightPat, 40, "Copyright notice"⟩,
  ⟨allRightsPat, 35, "All rights reserved"⟩,
  ⟨[.str "published".toList, .plus .space, .alts ["in".toList, "by".toList], .plus .space, .cls .alpha],
    30, "Published in/by statement"⟩,
  ⟨[.str "journal".toList, .plus .space, .str "of".toList, .plus .space, .cls .alpha],
    25, "Journal reference"⟩,
  ⟨[.str "volume".toList, .plus .space, .plus .digit, .star .space, .str ",".toList,
      .star .space, .str "issue".toList, .plus .space, .plus .digit],
    25, "Volume/issue reference"⟩,
  ⟨[.str "doi:".toList, .star .space, .plus .nonspace],
    20, "DOI reference"⟩,
  ⟨[.str "retrieved".toList, .plus .space, .str "from".toList, .plus .space,
      .str "http".toList, .opt 's', .str "://".toList],
    30, "Retrieved from URL"⟩,
  ⟨[.str "isbn".toList, .star .space, .plus .nonspace],
    20, "ISBN reference"⟩]

/-- The seven `suspiciousPatterns` regexes. -/
def suspiciousPatterns : List Indicator := [
  ⟨[.str "(".toList, .star .space, .plus .wordc, .star .space, .str ",".toList,
      .star .space, .rep 4 .digit, .star .space, .str ")".toList],
    3, "Citation pattern"⟩,
  ⟨[.str "[".toList, .star .space, .plus .digit, .star .space, .str "]".toList],
    2, "Bracket citation"⟩,
  ⟨[.str "et".toList, .plus .space, .str "al.".toList],
    5, "Et al. usage"⟩,
  ⟨[.str "pp.".toList, .star .space, .plus .digit],
    4, "Page reference"⟩,
  ⟨[.str "according".toList, .plus .space, .str "to".toList, .plus .space, .cls .alpha, .plus .alpha],
    3, "According to [Name]"⟩,
  ⟨[.str "as".toList, .plus .space, .str "cited".toList, .plus .space, .str "in".toList],
    4, "As cited in"⟩,
  ⟨[.str "cf.".toList, .star .space, .plus .wordc],
    3, "Cf. reference"⟩]

/-- The regex `/https?:\/\/[^\s]+/g`. -/
def urlPat : Pat := [.str "http".toList, .opt 's', .str "://".toList, .plus .nonspace]

/-- The twenty boilerplate phrases. -/
def academicPhrases : List String := [
  "it is important to note that", "in conclusion", "this paper examines",
  "the results indicate that", "previous research has shown", "the literature review",
  "methodology section", "data analysis reveals", "research findings suggest",
  "theoretical framework", "empirical evidence", "statistically significant",
  "future research should", "limitations of this study", "as discussed above",
  "the purpose of this study", "research questions", "hypothesis testing",
  "sample size", "data collection methods"]

/-! ### The scorer itself -/

/-- The object literal built at the end of `calculatePlagiarismScore`. -/
structure PlagReport where
  score : Nat
  indicators : List String
  suspiciousCount : Nat
  urlsFound : Nat
  phraseCount : Nat
deriving DecidableEq, Repr

/-- Result type: `calculatePlagiarismScore` returns the bare number `0` for short texts
and an object for scored texts; this sum type mirrors that. -/
inductive ScoreResult where
  | raw (n : Nat)
  | report (r : PlagReport)
deriving DecidableEq, Repr

/-- Contribution of the definite indicators: each weight once per category
with a positive match count. -/
def defContribution (counts : List Nat) : Nat :=
  ((counts.zip (definiteIndicators.map Indicator.weight)).map
    (fun p => if 0 < p.1 then p.2 else 0)).sum

/-- Contribution of the suspicious patterns: weight times occurrence count. -/
def suspContribution (counts : List Nat) : Nat :=
  ((counts.zip (suspiciousPatterns.map Indicator.weight)).map (fun p => p.1 * p.2)).sum

/-- Contribution of academic-phrase overuse. -/
def phraseContribution (pc : Nat) : Nat :=
  if 8 < pc then Nat.min (pc * 2) 20 else 0

/-- The pre-cap sum of all six signal contributions. -/
def rawScore (dc sc : List Nat) (urls : Nat) (varHigh : Bool) (pc : Nat) (llHigh : Bool) : Nat :=
  defContribution dc + suspContribution sc + urls * 15 + (if varHigh then 15 else 0) +
    phraseContribution pc + (if llHigh then 10 else 0)

/-- Sentences: `text.split(/[.!?]+/).filter(s => s.trim().length > 20)`. -/
def sentenceList (text : List Char) : List (List Char) :=
  (jsSplitRuns (fun c => c = '.' || c = '!' || c = '?') text).filter
    (fun s => 20 < (trimChars s).length)

/-- Per-sentence word count `s.split(/\s+/).length` (JS keeps empty fragments). -/
def sentenceWordCount (s : List Char) : Nat := (jsSplitRuns jsIsSpace s).length

/-- Population variance of a list of word counts, over `ℚ`. -/
def varianceOf (lens : List Nat) : ℚ :=
  let n : ℚ := lens.length
  let avg : ℚ := ((lens.map (fun l : Nat => (l : ℚ))).sum) / n
  ((lens.map (fun l : Nat => ((l : ℚ) - avg) ^ 2)).sum) / n

/-- Exact integer form of the test `variance > 500`: with `n` counts and
total `S`, the population variance `Σ (lᵢ − S/n)² / n` equals
`Σ (n·lᵢ − S)² / n³`, so the comparison is `500·n³ < Σ (n·lᵢ − S)²`.
(`varianceExceeds_iff` below proves this agrees with `varianceOf`.) -/
def varianceExceeds (lens : List Nat) : Bool :=
  let n : Int := lens.length
  let s : Int := (lens.map (fun l : Nat => (l : Int))).sum
  decide (500 * (n * n * n) <
    (lens.map (fun l : Nat => (n * (l : Int) - s) * (n * (l : Int) - s))).sum)

/-- The sentence-length-variance signal: more than 5 qualifying sentences
and variance above 500. -/
def varianceHigh (text : List Char) : Bool :=
  let ss := sentenceList text
  decide (5 < ss.length) && varianceExceeds (ss.map sentenceWordCount)

/-- Lines longer than 120 characters with non-blank content. -/
def longLineCount (text : List Char) : Nat :=
  ((jsSplitChar '\n' text).filter
    (fun l => decide (120 < l.length) && decide (0 < (trimChars l).length))).length

def defCounts (lower : List Char) : List Nat :=
  definiteIndicators.map (fun i => countMatches i.pat lower)

def suspCounts (lower : List Char) : List Nat :=
  suspiciousPatterns.map (fun i => countMatches i.pat lower)

def phraseTotal (lower : List Char) : Nat :=
  (academicPhrases.map (fun p => countMatches [.str p.toList] lower)).sum

/-- Words longer than 3 characters in the lower-cased text. -/
def significantWordCount (text : List Char) : Nat :=
  ((jsSplitRuns jsIsSpace (text.map Char.toLower)).filter (fun w => 3 < w.length)).length

/-- The scorer `calculatePlagiarismScore` (uploadController enhanced variant, lines 480–585). -/
def calculatePlagiarismScore (text : List Char) : ScoreResult :=
  let lowerText := text.map Char.toLower
  let wordCount := significantWordCount text
  if wordCount < 50 then .raw 0
  else
    let dc := defCounts lowerText
    let sc := suspCounts lowerText
    let urls := countMatches urlPat lowerText
    let vh := varianceHigh text
    let pc := phraseTotal lowerText
    let lh : Bool := decide (5 < longLineCount text)
    .report {
      score := Nat.min (rawScore dc sc urls vh pc lh) 95
      indicators := (definiteIndicators.filter
        (fun i => 0 < countMatches i.pat lowerText)).map Indicator.description
      suspiciousCount := sc.sum
      urlsFound := urls
      phraseCount := pc }

/-- The value returned by the scorer's catch-all handler. -/
def plagiarismErrorValue : PlagReport :=
  { score := 0, indicators := [], suspiciousCount := 0, urlsFound := 0, phraseCount := 0 }

/-- The numeric score carried by either shape of result. -/
def ScoreResult.scoreValue : ScoreResult → Nat
  | .raw n => n
  | .report r => r.score

/-! ### Placeholder embedding generator (deepseekService `getEmbedding`, lines 14–46) -/

/-- The guard `if (!text || text.trim().length === 0) throw`. -/
inductive EmbedError where
  | emptyText
deriving DecidableEq

/-- Signed 32-bit wraparound, as applied by `hash |= 0` and by `<< 5`. -/
def toInt32 (n : Int) : Int :=
  (n + 2147483648) % 4294967296 - 2147483648

/-- One step of the rolling hash:
`hash = ((hash << 5) - hash) + word.charCodeAt(i); hash |= 0`. -/
def jsHashStep (h : Int) (c : Char) : Int :=
  toInt32 (toInt32 (h * 32) - h + c.toNat)

/-- The rolling 32-bit hash of a token. -/
def jsHash (w : List Char) : Int := w.foldl jsHashStep 0

/-- Truncation: `text.length > 4000 ? text.substring(0, 4000) : text`. -/
def truncatedText (text : List Char) : List Char :=
  if 4000 < text.length then text.take 4000 else text

/-- Tokens: `truncatedText.toLowerCase().split(/\s+/).slice(0, 100)`. -/
def embTokens (text : List Char) : List (List Char) :=
  (jsSplitRuns jsIsSpace ((truncatedText text).map Char.toLower)).take 100

/-- Component value `(hash % 100) / 100` with the JS remainder (sign of the dividend). -/
def embComponent (w : List Char) : ℚ :=
  (Int.tmod (jsHash w) 100 : ℚ) / 100

/-- deepseekService `getEmbedding`: a fresh `Array(100).fill(0)` whose first
`words.length` slots are overwritten by the hash components. -/
def getEmbedding (text : List Char) : Except EmbedError (List ℚ) :=
  if text = [] ∨ (trimChars text).length = 0 then .error .emptyText
  else
    .ok ((embTokens text).map embComponent ++
      List.replicate (100 - (embTokens text).length) 0)

/-! ### Vector similarity (`cosineSimilarity`, identical in aiService lines
57–81 and deepseekService lines 49–73) -/

/-- The thrown `Error('Vectors must be non-empty and of same length')`. -/
inductive CosineError where
  | dimensionMismatch
deriving DecidableEq

/-- The single accumulation loop: `(dotProduct, normA, normB)`. -/
def cosineLoop : List ℚ → List ℚ → ℚ × ℚ × ℚ
  | a :: as, b :: bs =>
    let r := cosineLoop as bs
    (a * b + r.1, a * a + r.2.1, b * b + r.2.2)
  | _, _ => (0, 0, 0)

/-- The function `cosineSimilarity(vecA, vecB)`; `none` models an undefined argument
(`!vecA || !vecB` — empty arrays are truthy in JS, so emptiness is only
caught by the later explicit length test, which returns `0`). -/
noncomputable def cosineSimilarity (vecA vecB : Option (List ℚ)) :
    Except CosineError ℝ :=
  match vecA, vecB with
  | none, _ => .error .dimensionMismatch
  | _, none => .error .dimensionMismatch
  | some a, some b =>
    if a.length ≠ b.length then .error .dimensionMismatch
    else if a.length = 0 ∨ b.length = 0 then .ok 0
    else
      let l := cosineLoop a b
      if l.2.1 = 0 ∨ l.2.2 = 0 then .ok 0
      else .ok ((l.1 : ℝ) / (Real.sqrt (l.2.1 : ℝ) * Real.sqrt (l.2.2 : ℝ)))

/-! ### Source ranker (uploadController `uploadAssignment`, lines 93–119) -/

/-- One row of `academic_sources`; `embedding` is the result of
`JSON.parse(source.embedding)` viewed as a numeric vector, `none` when the
parse throws (the stored text is corrupt or not a numeric array). -/
structure SourceRow where
  id : Nat
  title : String
  authors : String
  abstract : String
  embedding : Option (List ℚ)

/-- The object pushed into `similarities`. -/
structure SimMatch where
  id : Nat
  title : String
  authors : String
  similarity : ℚ
  abstract : String
deriving DecidableEq

/-- Rounding `parseFloat(similarity.toFixed(4))`: the stored similarity, rounded to
four decimal places. -/
noncomputable def roundTo4 (x : ℝ) : ℚ :=
  (round (x * 10000) : ℚ) / 10000

/-- The loop body: `JSON.parse` inside `try`, similarity, threshold filter;
any throw is caught and the source is skipped with a warning. -/
noncomputable def rankSource (docEmb : List ℚ) (s : SourceRow) : Option SimMatch :=
  match s.embedding with
  | none => none
  | some e =>
    match cosineSimilarity (some docEmb) (some e) with
    | .error _ => none
    | .ok sim =>
      if (0.75 : ℝ) < sim then
        some { id := s.id, title := s.title, authors := s.authors,
               similarity := roundTo4 sim, abstract := s.abstract }
      else none

/-- The ranking phase: per-source scoring with per-record recovery, then
`similarities.sort((a, b) => b.similarity - a.similarity)` (a stable sort,
descending by similarity). -/
noncomputable def rankSources (docEmb : List ℚ) (corpus : List SourceRow) : List SimMatch :=
  (corpus.filterMap (rankSource docEmb)).mergeSort
    (fun x y => decide (y.similarity ≤ x.similarity))

/-- Truncation `similarities.slice(0, 5)`: the list persisted as suggested sources. -/
noncomputable def suggestedSources (docEmb : List ℚ) (corpus : List SourceRow) : List SimMatch :=
  (rankSources docEmb corpus).take 5

/-! ### Analysis synthesizer (deepseekService `generateSummary`, lines
84–178, and `createFallbackAnalysis`, lines 181–195) -/

/-- A parsed JSON value (the result of a successful `JSON.parse`). -/
inductive Json where
  | null
  | bool (b : Bool)
  | num (q : ℚ)
  | str (s : String)
  | arr (xs : List Json)
  | obj (fields : List (String × Json))

/-- JS truthiness of a JSON value. -/
def Json.truthy : Json → Bool
  | .null => false
  | .bool b => b
  | .num q => decide (q ≠ 0)
  | .str s => decide (s ≠ "")
  | .arr _ => true
  | .obj _ => true

/-- Field access `analysis[field]`; `none` plays the role of `undefined`. -/
def Json.getField : Json → String → Option Json
  | .obj fields, k => (fields.find? (fun p => p.1 = k)).map Prod.snd
  | _, _ => none

/-- Truthiness of `analysis[field]` (`undefined` is falsy), the test
`!analysis[field]` negates. -/
def Json.fieldTruthy (j : Json) (k : String) : Bool :=
  match j.getField k with
  | some v => v.truthy
  | none => false

/-- The `requiredFields` array of `generateSummary`. -/
def requiredFields : List String :=
  ["topic", "academic_level", "key_themes", "research_suggestions"]

/-- The fallback `createFallbackAnalysis(text)` (deepseekService lines 181–195). -/
def createFallbackAnalysis (text : List Char) : Json :=
  let wordCount := (jsSplitRuns jsIsSpace text).length
  .obj [
    ("topic", .str "Academic Assignment"),
    ("academic_level", .str (if 2000 < wordCount then "Undergraduate" else "High School")),
    ("key_themes", .arr [.str "Academic writing", .str "Research content",
      .str "Critical analysis"]),
    ("research_suggestions", .str "Consider expanding your research with additional academic sources and providing more detailed analysis of key concepts."),
    ("citation_recommendations", .str "APA, MLA, Chicago"),
    ("writing_quality", .str "Good"),
    ("strengths", .arr [.str "Clear structure", .str "Good topic coverage"]),
    ("improvement_areas", .arr [.str "Could use more specific examples",
      .str "Consider adding references"]),
    ("confidence_score", .num (6 / 10))]

/-- Outcome of the external model call, as seen after
`JSON.parse(data.choices[0].message.content)`: a transport-level failure
(`fetch` rejected or `!response.ok`), or a reply whose content parsed to
`some` JSON value (`none` when `JSON.parse` threw). -/
inductive ModelReply where
  | transportFailure
  | reply (parsed : Option Json)

/-- deepseekService `generateSummary`, with the ambient
`process.env.DEEPSEEK_API_KEY` and the network outcome made explicit
arguments.  Every internal throw — including the too-short-input throw at
the top of the `try` block — is caught by the outer `catch`, which returns
`createFallbackAnalysis(text)`; the function never propagates an error for
string inputs. -/
def generateSummary (apiKey : Option String) (call : ModelReply)
    (text : List Char) (_sources : List SimMatch) : Json :=
  if text = [] ∨ (trimChars text).length < 50 then createFallbackAnalysis text
  else
    match apiKey with
    | none => createFallbackAnalysis text
    | some _ =>
      match call with
      | .transportFailure => createFallbackAnalysis text
      | .reply none => createFallbackAnalysis text
      | .reply (some analysis) =>
        if requiredFields.all (fun f => analysis.fieldTruthy f) then analysis
        else createFallbackAnalysis text

/-! ### Concrete inputs used by counterexamples and witnesses -/

/-- Six qualifying sentences, five of two long words and one of 65 words:
sentence-length variance just above 500, no other signal. -/
def textVarianceBase : String :=
  "gorgeous splendid mountains. gorgeous splendid mountains. gorgeous splendid mountains. gorgeous splendid mountains. gorgeous splendid mountains. abcd abcd abcd abcd abcd abcd abcd abcd abcd abcd abcd abcd abcd abcd abcd abcd abcd abcd abcd abcd abcd abcd abcd abcd abcd abcd abcd abcd abcd abcd abcd abcd abcd abcd abcd abcd abcd abcd abcd abcd abcd abcd abcd abcd abcd abcd abcd abcd abcd abcd abcd abcd abcd abcd abcd abcd abcd abcd abcd abcd abcd abcd abcd abcd abcd."

/-- Two appended average-length sentences, one containing an occurrence of
the suspicious pattern `according to [Name]`; they pull the variance back
under 500. -/
def textAddedCitation : String :=
  " This framing owes much according to Smithson sage counsel pq pq pq pq. Keen readers value all those compact chapters pq pq pq pq."

/-- A document of 40 significant words. -/
def textForty : String :=
  "handsome handsome handsome handsome handsome handsome handsome handsome handsome handsome handsome handsome handsome handsome handsome handsome handsome handsome handsome handsome handsome handsome handsome handsome handsome handsome handsome handsome handsome handsome handsome handsome handsome handsome handsome handsome handsome handsome handsome handsome"

/-- More than fifty significant words containing a copyright notice and an
all-rights-reserved notice. -/
def textCopyright : String :=
  "copyright © 2020 all rights reserved handsome handsome handsome handsome handsome handsome handsome handsome handsome handsome handsome handsome handsome handsome handsome handsome handsome handsome handsome handsome handsome handsome handsome handsome handsome handsome handsome handsome handsome handsome handsome handsome handsome handsome handsome handsome handsome handsome handsome handsome handsome handsome handsome handsome handsome handsome handsome handsome handsome handsome"

/-- More than fifty significant words with no plagiarism signal at all. -/
def textClean : String :=
  "handsome handsome handsome handsome handsome handsome handsome handsome handsome handsome handsome handsome handsome handsome handsome handsome handsome handsome handsome handsome handsome handsome handsome handsome handsome handsome handsome handsome handsome handsome handsome handsome handsome handsome handsome handsome handsome handsome handsome handsome handsome handsome handsome handsome handsome handsome handsome handsome handsome handsome handsome handsome"

/-- A document whose single token hashes to a negative 32-bit value. -/
def textNegHash : String := "plagiarism"

/-- A corpus row whose true cosine similarity with `docEmbed` is
`13825/18433 ≈ 0.750014`: above the threshold, but rounding to four
decimals stores exactly `0.75`. -/
def borderRow : SourceRow :=
  { id := 1, title := "T", authors := "A", abstract := "B",
    embedding := some [13825, 12192] }

/-- A corpus row whose stored embedding fails to parse. -/
def corruptRow : SourceRow :=
  { id := 2, title := "C", authors := "C", abstract := "C", embedding := none }

/-- The document embedding used against `borderRow`. -/
def docEmbed : List ℚ := [1, 0]

end Acad

/-! ## Theorems -/

namespace Acad

/-- Helper: the report produced for a text of at least 50 significant words. -/
theorem calculatePlagiarismScore_eq_report (text : List Char)
    (h : ¬ significantWordCount text < 50) :
    calculatePlagiarismScore text = .report {
      score := Nat.min (rawScore (defCounts (text.map Char.toLower))
        (suspCounts (text.map Char.toLower)) (countMatches urlPat (text.map Char.toLower))
        (varianceHigh text) (phraseTotal (text.map Char.toLower))
        (decide (5 < longLineCount text))) 95
      indicators := (definiteIndicators.filter
        (fun i => 0 < countMatches i.pat (text.map Char.toLower))).map Indicator.description
      suspiciousCount := (suspCounts (text.map Char.toLower)).sum
      urlsFound := countMatches urlPat (text.map Char.toLower)
      phraseCount := phraseTotal (text.map Char.toLower) } := by
  simp [calculatePlagiarismScore, h]

/-- C3: for every text with fewer than 50 significant words,
`calculatePlagiarismScore` returns the bare JS number `0` — not a report
object of the same shape as for longer texts (the caller's
`plagiarismResult.score` is therefore `undefined` on this path). -/
theorem short_text_bare_zero (text : List Char)
    (h : significantWordCount text < 50) :
    calculatePlagiarismScore text = .raw 0 := by
  simp [calculatePlagiarismScore, h]

/-- Witness for `short_text_bare_zero`: a 40-word document. -/
theorem short_text_bare_zero_witness :
    significantWordCount textForty.toList < 50 ∧
    calculatePlagiarismScore textForty.toList = .raw 0 :=
  ⟨by decide, short_text_bare_zero textForty.toList (by decide)⟩

/-- C5 counterexample: two empty vectors are defined and of equal length,
so the guard does not throw; the explicit emptiness test returns `0`
instead of raising `DimensionMismatchError`. -/
theorem cosineSimilarity_both_empty_ok_zero :
    cosineSimilarity (some []) (some []) = .ok 0 := by
  simp [cosineSimilarity]

/-- C5 (amended): `cosineSimilarity` raises the dimension error exactly when
the lengths differ or either argument is undefined; two empty vectors have
equal length and yield `.ok 0` (see the counterexample). -/
theorem cosineSimilarity_dimension_errors (a b : List ℚ)
    (h : a.length ≠ b.length) :
    cosineSimilarity (some a) (some b) = .error .dimensionMismatch ∧
    cosineSimilarity none (some b) = .error .dimensionMismatch ∧
    cosineSimilarity (some a) none = .error .dimensionMismatch ∧
    cosineSimilarity none none = .error .dimensionMismatch := by
  exact ⟨by simp [cosineSimilarity, h], rfl, rfl, rfl⟩

/-- Witness for `cosineSimilarity_dimension_errors`. -/
theorem cosineSimilarity_dimension_errors_witness :
    ([(1 : ℚ)].length ≠ ([] : List ℚ).length) ∧
    cosineSimilarity (some [(1 : ℚ)]) (some []) = .error .dimensionMismatch :=
  ⟨by decide, (cosineSimilarity_dimension_errors [(1 : ℚ)] [] (by decide)).1⟩

/-- C8 counterexample: a 9-character input does not propagate a too-short
error; the throw is caught by the outer catch and the deterministic
fallback analysis is returned as an ordinary value. -/
theorem generateSummary_short_input_falls_back :
    generateSummary (some "key") (.reply none) "too short".toList [] =
      createFallbackAnalysis "too short".toList := rfl

/-- C8 (amended): for every input shorter than 50 characters after
trimming, `generateSummary` returns `createFallbackAnalysis text` — the
internally raised too-short error is absorbed by the catch-all handler and
never reaches the caller. -/
theorem generateSummary_short_input_spec (apiKey : Option String)
    (call : ModelReply) (text : List Char) (sources : List SimMatch)
    (h : (trimChars text).length < 50) :
    generateSummary apiKey call text sources = createFallbackAnalysis text := by
  simp [generateSummary, h]

/-- Witness for `generateSummary_short_input_spec`. -/
theorem generateSummary_short_input_spec_witness :
    (trimChars "abc".toList).length < 50 ∧
    generateSummary (some "key") .transportFailure "abc".toList [] =
      createFallbackAnalysis "abc".toList :=
  ⟨by decide,
    generateSummary_short_input_spec (some "key") .transportFailure "abc".toList [] (by decide)⟩

end Acad

namespace Acad

/-- Helper: the fallback analysis always carries all four required fields
with truthy values. -/
theorem createFallbackAnalysis_fieldTruthy (text : List Char) :
    ∀ f ∈ requiredFields, (createFallbackAnalysis text).fieldTruthy f = true := by
  intro f hf
  fin_cases hf <;>
    simp [createFallbackAnalysis, Json.fieldTruthy, Json.getField, Json.truthy,
      List.find?] <;>
    split <;> simp

/-- C9: the model output is discarded in favour of the deterministic
fallback whenever the content does not parse as JSON, or parses but lacks
a required key, or no model credential is configured; and every value
`generateSummary` returns carries all four required fields truthy. -/
theorem generateSummary_fallback_paths (apiKey : Option String) (key : String)
    (call : ModelReply) (text : List Char) (sources : List SimMatch)
    (analysis : Json) (f : String) (hf : f ∈ requiredFields)
    (hmiss : analysis.getField f = none) :
    generateSummary apiKey (.reply none) text sources = createFallbackAnalysis text ∧
    generateSummary (some key) (.reply (some analysis)) text sources =
      createFallbackAnalysis text ∧
    generateSummary none call text sources = createFallbackAnalysis text ∧
    ∀ g ∈ requiredFields,
      (generateSummary apiKey call text sources).fieldTruthy g = true := by
  have hT : analysis.fieldTruthy f = false := by
    simp [Json.fieldTruthy, hmiss]
  have hAll : requiredFields.all (fun g => analysis.fieldTruthy g) = false := by
    rw [List.all_eq_false]
    exact ⟨f, hf, by simp [hT]⟩
  refine ⟨?_, ?_, ?_, ?_⟩
  · unfold generateSummary
    split
    · rfl
    · cases apiKey <;> rfl
  · unfold generateSummary
    split
    · rfl
    · simp only [hAll]
      rfl
  · unfold generateSummary
    split <;> rfl
  · intro g hg
    unfold generateSummary
    split
    · exact createFallbackAnalysis_fieldTruthy text g hg
    · cases apiKey with
      | none => exact createFallbackAnalysis_fieldTruthy text g hg
      | some k =>
        cases call with
        | transportFailure => exact createFallbackAnalysis_fieldTruthy text g hg
        | reply parsed =>
          cases parsed with
          | none => exact createFallbackAnalysis_fieldTruthy text g hg
          | some a =>
            by_cases hall : requiredFields.all (fun g => a.fieldTruthy g) = true
            · simp only [hall, if_true]
              exact List.all_eq_true.mp hall g hg
            · simp only [Bool.not_eq_true] at hall
              simp only [hall]
              exact createFallbackAnalysis_fieldTruthy text g hg

/-- Witness for `generateSummary_fallback_paths`. -/
theorem generateSummary_fallback_paths_witness :
    ("topic" ∈ requiredFields ∧ (Json.obj []).getField "topic" = none) ∧
    generateSummary none .transportFailure "abc".toList [] =
      createFallbackAnalysis "abc".toList :=
  ⟨⟨by decide, rfl⟩,
    (generateSummary_fallback_paths none "key" .transportFailure "abc".toList []
      (Json.obj []) "topic" (by decide) rfl).2.2.1⟩

end Acad

namespace Acad

/-- Helper: on `cosineLoop a a`, the dot product equals the first norm. -/
theorem cosineLoop_self_dot (a : List ℚ) :
    (cosineLoop a a).1 = (cosineLoop a a).2.1 := by
  induction a with
  | nil => rfl
  | cons x xs ih => simp [cosineLoop, ih]

/-- Helper: on `cosineLoop a a`, the two norms coincide. -/
theorem cosineLoop_self_norms (a : List ℚ) :
    (cosineLoop a a).2.2 = (cosineLoop a a).2.1 := by
  induction a with
  | nil => rfl
  | cons x xs ih => simp [cosineLoop, ih]

/-- Helper: accumulated norms are nonnegative. -/
theorem cosineLoop_normA_nonneg : ∀ (a b : List ℚ), 0 ≤ (cosineLoop a b).2.1
  | [], _ => le_refl 0
  | _ :: _, [] => le_refl 0
  | x :: xs, _ :: ys =>
    add_nonneg (mul_self_nonneg x) (cosineLoop_normA_nonneg xs ys)

/-- Helper: a vector with a nonzero entry has positive accumulated norm. -/
theorem cosineLoop_self_pos (a : List ℚ) (h : ∃ x ∈ a, x ≠ 0) :
    0 < (cosineLoop a a).2.1 := by
  induction a with
  | nil => simp at h
  | cons x xs ih =>
    rcases h with ⟨y, hy, hy0⟩
    rcases List.mem_cons.mp hy with hyx | hmem
    · subst hyx
      exact add_pos_of_pos_of_nonneg (mul_self_pos.mpr hy0)
        (cosineLoop_normA_nonneg xs xs)
    · exact add_pos_of_nonneg_of_pos (mul_self_nonneg x) (ih ⟨y, hmem, hy0⟩)

/-- Helper: for defined, equal-length, non-empty vectors the guard and the
emptiness test fall through to the norm test and the quotient. -/
theorem cosineSimilarity_eq_of_good (a b : List ℚ)
    (hlen : a.length = b.length) (hne : a ≠ []) :
    cosineSimilarity (some a) (some b) =
      (if (cosineLoop a b).2.1 = 0 ∨ (cosineLoop a b).2.2 = 0 then Except.ok 0
       else Except.ok (((cosineLoop a b).1 : ℝ) /
        (Real.sqrt ((cosineLoop a b).2.1 : ℝ) * Real.sqrt ((cosineLoop a b).2.2 : ℝ)))) := by
  have hna : a.length ≠ 0 := fun h => hne (List.length_eq_zero.mp h)
  have hcond : ¬ (a.length = 0 ∨ b.length = 0) := by
    rw [← hlen]
    simp [hna]
  have hnedec : ¬ (a.length ≠ b.length) := by simp [hlen]
  show (if a.length ≠ b.length then
      (Except.error CosineError.dimensionMismatch : Except CosineError ℝ)
    else if a.length = 0 ∨ b.length = 0 then Except.ok 0
    else
      let l := cosineLoop a b
      if l.2.1 = 0 ∨ l.2.2 = 0 then Except.ok 0
      else Except.ok ((l.1 : ℝ) /
        (Real.sqrt (l.2.1 : ℝ) * Real.sqrt (l.2.2 : ℝ)))) = _
  rw [if_neg hnedec, if_neg hcond]

/-- C6: for equal-length non-empty vectors, `cosineSimilarity` returns 0
when either accumulated norm is zero (zero vectors included), otherwise the
unclamped quotient of the dot product by the product of the Euclidean
norms; a vector with a nonzero entry has similarity exactly 1 with
itself. -/
theorem cosineSimilarity_value_spec (a b : List ℚ)
    (hlen : a.length = b.length) (hne : a ≠ []) :
    ((cosineLoop a b).2.1 = 0 ∨ (cosineLoop a b).2.2 = 0 →
      cosineSimilarity (some a) (some b) = .ok 0) ∧
    ((cosineLoop a b).2.1 ≠ 0 → (cosineLoop a b).2.2 ≠ 0 →
      cosineSimilarity (some a) (some b) =
        .ok (((cosineLoop a b).1 : ℝ) /
          (Real.sqrt ((cosineLoop a b).2.1 : ℝ) * Real.sqrt ((cosineLoop a b).2.2 : ℝ)))) ∧
    (b = a → (∃ x ∈ a, x ≠ 0) → cosineSimilarity (some a) (some b) = .ok 1) := by
  have key := cosineSimilarity_eq_of_good a b hlen hne
  refine ⟨?_, ?_, ?_⟩
  · intro h0
    rw [key, if_pos h0]
  · intro h1 h2
    rw [key, if_neg (by simp [h1, h2])]
  · intro hba hx
    subst hba
    have hpos := cosineLoop_self_pos b hx
    have h1 : (cosineLoop b b).2.1 ≠ 0 := ne_of_gt hpos
    have h2 : (cosineLoop b b).2.2 ≠ 0 := by
      rw [cosineLoop_self_norms]
      exact h1
    have hposR : (0 : ℝ) < ((cosineLoop b b).2.1 : ℝ) := by exact_mod_cast hpos
    rw [key, if_neg (by simp [h1, h2])]
    congr 1
    rw [cosineLoop_self_dot, cosineLoop_self_norms,
      Real.mul_self_sqrt (le_of_lt hposR)]
    exact div_self (ne_of_gt hposR)

/-- Witness for `cosineSimilarity_value_spec`. -/
theorem cosineSimilarity_value_spec_witness :
    ([(1 : ℚ), 2].length = [(2 : ℚ), 1].length ∧ [(1 : ℚ), 2] ≠ []) ∧
    (([(2 : ℚ), 1] = [(1 : ℚ), 2] → (∃ x ∈ [(1 : ℚ), 2], x ≠ 0) →
      cosineSimilarity (some [(1 : ℚ), 2]) (some [(2 : ℚ), 1]) = .ok 1)) :=
  ⟨⟨rfl, by simp⟩,
    (cosineSimilarity_value_spec [(1 : ℚ), 2] [(2 : ℚ), 1] rfl (by simp)).2.2⟩

end Acad

namespace Acad

/-- Helper: the JS remainder by 100 is above −100. -/
theorem tmod_hundred_lb (n : Int) : -100 < Int.tmod n 100 := by
  cases n with
  | ofNat m =>
    have h : (0 : Int) ≤ Int.tmod (Int.ofNat m) 100 :=
      Int.tmod_nonneg 100 (Int.ofNat_nonneg m)
    omega
  | negSucc m =>
    have h : Int.tmod (Int.negSucc m) 100 = -(((m + 1) % 100 : Nat) : Int) := rfl
    have h2 : (m + 1) % 100 < 100 := Nat.mod_lt _ (by norm_num)
    omega

/-- Helper: each placeholder-embedding component lies strictly between −1
and 1 (not in `[0,1)`: the JS remainder keeps the dividend's sign). -/
theorem embComponent_bounds (w : List Char) :
    -1 < embComponent w ∧ embComponent w < 1 := by
  have hlb := tmod_hundred_lb (jsHash w)
  have hub := Int.tmod_lt_of_pos (jsHash w) (show (0 : Int) < 100 by norm_num)
  unfold embComponent
  constructor
  · rw [lt_div_iff₀ (by norm_num : (0 : ℚ) < 100)]
    have hc : ((-100 : Int) : ℚ) < ((Int.tmod (jsHash w) 100 : Int) : ℚ) := by
      exact_mod_cast hlb
    push_cast at hc ⊢
    linarith
  · rw [div_lt_one (by norm_num : (0 : ℚ) < 100)]
    exact_mod_cast hub

/-- C7 (amended): for non-blank input the placeholder embedding is a vector
of length exactly 100; component `i` below the token count is the token's
rolling 32-bit hash, JS-remaindered by 100 and divided by 100 — a value in
`(-1, 1)`, not `[0, 1)` — and every later component is exactly 0. -/
theorem getEmbedding_spec (text : List Char) (h : 0 < (trimChars text).length) :
    ∃ v, getEmbedding text = .ok v ∧ v.length = 100 ∧
      (∀ i (hi : i < (embTokens text).length),
        v[i]? = some (embComponent ((embTokens text).get ⟨i, hi⟩))) ∧
      (∀ i, (embTokens text).length ≤ i → i < 100 → v[i]? = some 0) ∧
      (∀ q ∈ v, -1 < q ∧ q < 1) := by
  have hcond : ¬ (text = [] ∨ (trimChars text).length = 0) := by
    rintro (rfl | h0)
    · simp [trimChars] at h
    · omega
  have htk : (embTokens text).length ≤ 100 := List.length_take_le _ _
  refine ⟨(embTokens text).map embComponent ++
    List.replicate (100 - (embTokens text).length) 0, ?_, ?_, ?_, ?_, ?_⟩
  · unfold getEmbedding
    rw [if_neg hcond]
  · simp only [List.length_append, List.length_map, List.length_replicate]
    omega
  · intro i hi
    rw [List.getElem?_append_left (by simpa using hi), List.getElem?_map,
      List.getElem?_eq_getElem hi]
    simp
  · intro i hle hlt
    rw [List.getElem?_append_right (by simpa using hle)]
    simp only [List.length_map]
    rw [List.getElem?_replicate, if_pos (by omega)]
  · intro q hq
    rcases List.mem_append.mp hq with hm | hm
    · rcases List.mem_map.mp hm with ⟨w, _, rfl⟩
      exact embComponent_bounds w
    · have hq0 := List.eq_of_mem_replicate hm
      subst hq0
      norm_num

/-- Witness for `getEmbedding_spec`. -/
theorem getEmbedding_spec_witness :
    0 < (trimChars "abc".toList).length ∧
    ∃ v, getEmbedding "abc".toList = .ok v ∧ v.length = 100 ∧
      (∀ i (hi : i < (embTokens "abc".toList).length),
        v[i]? = some (embComponent ((embTokens "abc".toList).get ⟨i, hi⟩))) ∧
      (∀ i, (embTokens "abc".toList).length ≤ i → i < 100 → v[i]? = some 0) ∧
      (∀ q ∈ v, -1 < q ∧ q < 1) :=
  ⟨by decide, getEmbedding_spec "abc".toList (by decide)⟩

set_option maxRecDepth 20000 in
/-- C7 counterexample: the token "plagiarism" hashes to a negative 32-bit
value, so its embedding component is negative — not in `[0, 1)`. -/
theorem getEmbedding_negative_component :
    (getEmbedding textNegHash.toList).toOption.bind (fun v => v[0]?) =
      some (-37 / 100 : ℚ) ∧ (-37 / 100 : ℚ) < 0 := by
  constructor
  · have hcond : ¬ (textNegHash.toList = [] ∨
        (trimChars textNegHash.toList).length = 0) := by decide
    have htok : embTokens textNegHash.toList = ["plagiarism".toList] := by decide
    have hh : Int.tmod (jsHash "plagiarism".toList) 100 = -37 := by decide
    unfold getEmbedding
    rw [if_neg hcond, htok]
    simp only [List.map, List.length_cons, List.length_nil, Except.toOption,
      List.cons_append, List.nil_append, Option.bind, List.getElem?_cons_zero]
    unfold embComponent
    rw [hh]
    norm_num
  · norm_num

end Acad

namespace Acad

/-- Helper: the once-per-category sum only grows when counts grow. -/
theorem zip_once_sum_mono : ∀ (ws : List Nat) {dc dc' : List Nat},
    List.Forall₂ (· ≤ ·) dc dc' →
    ((dc.zip ws).map (fun p => if 0 < p.1 then p.2 else 0)).sum ≤
      ((dc'.zip ws).map (fun p => if 0 < p.1 then p.2 else 0)).sum := by
  intro ws dc dc' h
  induction h generalizing ws with
  | nil => simp
  | @cons a b as bs hab htail ih =>
    cases ws with
    | nil => simp
    | cons w ws' =>
      simp only [List.zip_cons_cons, List.map_cons, List.sum_cons]
      refine Nat.add_le_add ?_ (ih ws')
      split_ifs <;> omega

/-- Helper: the once-per-category sum only depends on which counts are
positive, not on how large they are. -/
theorem zip_once_sum_congr : ∀ (ws : List Nat) {dc dc' : List Nat},
    List.Forall₂ (fun c c' => 0 < c ↔ 0 < c') dc dc' →
    ((dc.zip ws).map (fun p => if 0 < p.1 then p.2 else 0)).sum =
      ((dc'.zip ws).map (fun p => if 0 < p.1 then p.2 else 0)).sum := by
  intro ws dc dc' h
  induction h generalizing ws with
  | nil => simp
  | @cons a b as bs hab htail ih =>
    cases ws with
    | nil => simp
    | cons w ws' =>
      simp only [List.zip_cons_cons, List.map_cons, List.sum_cons]
      have : (if 0 < a then w else 0) = (if 0 < b then w else 0) := by
        by_cases ha : 0 < a
        · rw [if_pos ha, if_pos (hab.mp ha)]
        · rw [if_neg ha, if_neg (fun hb => ha (hab.mpr hb))]
      rw [this, ih ws']

/-- Helper: the per-occurrence weighted sum is monotone in the counts. -/
theorem zip_mul_sum_mono : ∀ (ws : List Nat) {sc sc' : List Nat},
    List.Forall₂ (· ≤ ·) sc sc' →
    ((sc.zip ws).map (fun p => p.1 * p.2)).sum ≤
      ((sc'.zip ws).map (fun p => p.1 * p.2)).sum := by
  intro ws sc sc' h
  induction h generalizing ws with
  | nil => simp
  | @cons a b as bs hab htail ih =>
    cases ws with
    | nil => simp
    | cons w ws' =>
      simp only [List.zip_cons_cons, List.map_cons, List.sum_cons]
      exact Nat.add_le_add (Nat.mul_le_mul_right w hab) (ih ws')

/-- Helper: the phrase-overuse contribution is monotone. -/
theorem phraseContribution_mono {pc pc' : Nat} (h : pc ≤ pc') :
    phraseContribution pc ≤ phraseContribution pc' := by
  unfold phraseContribution
  split_ifs with h1 h2
  · exact min_le_min (by omega) (le_refl 20)
  · exact absurd (lt_of_lt_of_le h1 h) h2
  · exact Nat.zero_le _
  · exact Nat.zero_le _

/-- Helper: the pre-cap score is monotone in every signal. -/
theorem rawScore_mono (dc dc' sc sc' : List Nat) (urls urls' pc pc' : Nat)
    (vh vh' lh lh' : Bool)
    (hdc : List.Forall₂ (· ≤ ·) dc dc') (hsc : List.Forall₂ (· ≤ ·) sc sc')
    (hurls : urls ≤ urls') (hvh : vh = true → vh' = true)
    (hpc : pc ≤ pc') (hlh : lh = true → lh' = true) :
    rawScore dc sc urls vh pc lh ≤ rawScore dc' sc' urls' vh' pc' lh' := by
  unfold rawScore defContribution suspContribution
  have h1 := zip_once_sum_mono (definiteIndicators.map Indicator.weight) hdc
  have h2 := zip_mul_sum_mono (suspiciousPatterns.map Indicator.weight) hsc
  have h3 : (if vh then 15 else 0) ≤ (if vh' then 15 else 0) := by
    cases vh with
    | false => simp
    | true => rw [hvh rfl]
  have h4 : (if lh then 10 else 0) ≤ (if lh' then 10 else 0) := by
    cases lh with
    | false => simp
    | true => rw [hlh rfl]
  have h5 := phraseContribution_mono hpc
  omega

/-- C2 (amended): the returned score is `min(sum of contributions, 95)` and
always lies in `[0, 95]`; the aggregation is monotone non-decreasing in
every individual signal count, but adding occurrences to the text itself
can decrease the score by disturbing the sentence-length-variance signal
(see the counterexample). -/
theorem score_cap_and_signal_monotone (text : List Char)
    (dc dc' sc sc' : List Nat) (urls urls' pc pc' : Nat) (vh vh' lh lh' : Bool)
    (hdc : List.Forall₂ (· ≤ ·) dc dc') (hsc : List.Forall₂ (· ≤ ·) sc sc')
    (hurls : urls ≤ urls') (hvh : vh = true → vh' = true)
    (hpc : pc ≤ pc') (hlh : lh = true → lh' = true) :
    (calculatePlagiarismScore text).scoreValue ≤ 95 ∧
    (¬ significantWordCount text < 50 →
      (calculatePlagiarismScore text).scoreValue =
        Nat.min (rawScore (defCounts (text.map Char.toLower))
          (suspCounts (text.map Char.toLower))
          (countMatches urlPat (text.map Char.toLower)) (varianceHigh text)
          (phraseTotal (text.map Char.toLower))
          (decide (5 < longLineCount text))) 95) ∧
    rawScore dc sc urls vh pc lh ≤ rawScore dc' sc' urls' vh' pc' lh' := by
  refine ⟨?_, ?_, rawScore_mono dc dc' sc sc' urls urls' pc pc' vh vh' lh lh'
    hdc hsc hurls hvh hpc hlh⟩
  · by_cases hw : significantWordCount text < 50
    · simp [calculatePlagiarismScore, hw, ScoreResult.scoreValue]
    · rw [calculatePlagiarismScore_eq_report text hw]
      exact Nat.min_le_right _ _
  · intro hw
    rw [calculatePlagiarismScore_eq_report text hw]
    rfl

/-- Witness for `score_cap_and_signal_monotone`. -/
theorem score_cap_and_signal_monotone_witness :
    (List.Forall₂ (· ≤ ·) [0] [1] ∧ List.Forall₂ (· ≤ ·) [2] [2]) ∧
    ((calculatePlagiarismScore []).scoreValue ≤ 95 ∧
      (¬ significantWordCount [] < 50 →
        (calculatePlagiarismScore []).scoreValue =
          Nat.min (rawScore (defCounts ([].map Char.toLower))
            (suspCounts ([].map Char.toLower))
            (countMatches urlPat ([].map Char.toLower)) (varianceHigh [])
            (phraseTotal ([].map Char.toLower))
            (decide (5 < longLineCount []))) 95) ∧
      rawScore [0] [2] 3 false 4 false ≤ rawScore [1] [2] 7 true 4 true) := by
  have hdc : List.Forall₂ (· ≤ ·) [0] [1] := by simp
  have hsc : List.Forall₂ (· ≤ ·) [2] [2] := by simp
  exact ⟨⟨hdc, hsc⟩,
    score_cap_and_signal_monotone [] [0] [1] [2] [2] 3 7 4 4 false true false true
      hdc hsc (by norm_num) (fun _ => rfl) (le_refl 4) (fun _ => rfl)⟩

end Acad

namespace Acad

set_option maxRecDepth 12000 in
set_option maxHeartbeats 4000000 in
/-- C2 counterexample: extending `textVarianceBase` with
`textAddedCitation` adds one occurrence of the suspicious indicator
`according to [Name]` (suspicious count 0 → 1), yet the score drops from
15 to 3 because the appended sentences pull the sentence-length variance
under 500. -/
theorem score_not_monotone_in_text :
    calculatePlagiarismScore textVarianceBase.toList =
      .report { score := 15
                indicators := []
                suspiciousCount := 0
                urlsFound := 0
                phraseCount := 0 } ∧
    calculatePlagiarismScore (textVarianceBase.toList ++ textAddedCitation.toList) =
      .report { score := 3
                indicators := []
                suspiciousCount := 1
                urlsFound := 0
                phraseCount := 0 } ∧
    3 < 15 :=
  ⟨by decide, by decide, by decide⟩

/-- C4: each definite-indicator category contributes its weight once —
the once-per-category sum is invariant under changing the counts as long
as their positivity pattern is unchanged — and any sufficiently long text
matching both the copyright pattern and the all-rights-reserved pattern
scores at least 75. -/
theorem copyright_allrights_at_least_75 (text : List Char)
    (dc dc' : List Nat)
    (hiff : List.Forall₂ (fun c c' => 0 < c ↔ 0 < c') dc dc')
    (hw : ¬ significantWordCount text < 50)
    (hcopy : 0 < countMatches copyrightPat (text.map Char.toLower))
    (hrights : 0 < countMatches allRightsPat (text.map Char.toLower)) :
    defContribution dc = defContribution dc' ∧
    ∃ r, calculatePlagiarismScore text = .report r ∧ 75 ≤ r.score := by
  constructor
  · unfold defContribution
    exact zip_once_sum_congr _ hiff
  · refine ⟨_, calculatePlagiarismScore_eq_report text hw, ?_⟩
    have hdef : 75 ≤ defContribution (defCounts (text.map Char.toLower)) := by
      simp only [defCounts, definiteIndicators, defContribution, List.map_cons,
        List.map_nil, List.zip_cons_cons, List.zip_nil_right, List.sum_cons,
        List.sum_nil, if_pos hcopy, if_pos hrights]
      omega
    show 75 ≤ Nat.min (rawScore _ _ _ _ _ _) 95
    have hraw : 75 ≤ rawScore (defCounts (text.map Char.toLower))
        (suspCounts (text.map Char.toLower))
        (countMatches urlPat (text.map Char.toLower)) (varianceHigh text)
        (phraseTotal (text.map Char.toLower))
        (decide (5 < longLineCount text)) := by
      unfold rawScore
      omega
    exact le_min hraw (by norm_num)

set_option maxRecDepth 100000 in
/-- Witness for `copyright_allrights_at_least_75`. -/
theorem copyright_allrights_at_least_75_witness :
    (¬ significantWordCount textCopyright.toList < 50 ∧
      0 < countMatches copyrightPat (textCopyright.toList.map Char.toLower) ∧
      0 < countMatches allRightsPat (textCopyright.toList.map Char.toLower)) ∧
    (defContribution [] = defContribution [] ∧
      ∃ r, calculatePlagiarismScore textCopyright.toList = .report r ∧ 75 ≤ r.score) := by
  have h1 : ¬ significantWordCount textCopyright.toList < 50 := by decide
  have h2 : 0 < countMatches copyrightPat (textCopyright.toList.map Char.toLower) := by
    decide
  have h3 : 0 < countMatches allRightsPat (textCopyright.toList.map Char.toLower) := by
    decide
  exact ⟨⟨h1, h2, h3⟩,
    copyright_allrights_at_least_75 textCopyright.toList [] [] List.Forall₂.nil h1 h2 h3⟩

end Acad

namespace Acad

/-- C10: the scorer's catch-all handler returns score 0, an empty indicator
list and zero counts; a document of at least 50 significant words that
triggers no signal yields exactly the same report, so an internal scoring
failure is indistinguishable from a signal-free document. -/
theorem scorer_failure_value_indistinguishable (text : List Char)
    (hw : ¬ significantWordCount text < 50)
    (hdc : defCounts (text.map Char.toLower) = [0, 0, 0, 0, 0, 0, 0, 0])
    (hsc : suspCounts (text.map Char.toLower) = [0, 0, 0, 0, 0, 0, 0])
    (hurl : countMatches urlPat (text.map Char.toLower) = 0)
    (hvh : varianceHigh text = false)
    (hpc : phraseTotal (text.map Char.toLower) = 0)
    (hlh : ¬ 5 < longLineCount text) :
    calculatePlagiarismScore text = .report plagiarismErrorValue := by
  rw [calculatePlagiarismScore_eq_report text hw]
  have hfilter : (definiteIndicators.filter
      (fun i => 0 < countMatches i.pat (text.map Char.toLower))) = [] := by
    simp only [defCounts, definiteIndicators, List.map_cons, List.map_nil,
      List.cons.injEq, and_true] at hdc
    obtain ⟨h1, h2, h3, h4, h5, h6, h7, h8⟩ := hdc
    simp only [definiteIndicators, List.filter, h1, h2, h3, h4, h5, h6, h7, h8]
    norm_num
  have hraw : rawScore (defCounts (text.map Char.toLower))
      (suspCounts (text.map Char.toLower))
      (countMatches urlPat (text.map Char.toLower)) (varianceHigh text)
      (phraseTotal (text.map Char.toLower))
      (decide (5 < longLineCount text)) = 0 := by
    rw [hdc, hsc, hurl, hvh, hpc, decide_eq_false hlh]
    decide
  rw [hfilter, hraw, hsc, hurl, hpc]
  simp [plagiarismErrorValue]

set_option maxRecDepth 12000 in
set_option maxHeartbeats 4000000 in
/-- Witness for `scorer_failure_value_indistinguishable`. -/
theorem scorer_failure_value_indistinguishable_witness :
    (¬ significantWordCount textClean.toList < 50 ∧
      defCounts (textClean.toList.map Char.toLower) = [0, 0, 0, 0, 0, 0, 0, 0] ∧
      suspCounts (textClean.toList.map Char.toLower) = [0, 0, 0, 0, 0, 0, 0] ∧
      countMatches urlPat (textClean.toList.map Char.toLower) = 0 ∧
      varianceHigh textClean.toList = false ∧
      phraseTotal (textClean.toList.map Char.toLower) = 0 ∧
      ¬ 5 < longLineCount textClean.toList) ∧
    calculatePlagiarismScore textClean.toList = .report plagiarismErrorValue := by
  have h1 : ¬ significantWordCount textClean.toList < 50 := by decide
  have h2 : defCounts (textClean.toList.map Char.toLower) = [0, 0, 0, 0, 0, 0, 0, 0] := by
    decide
  have h3 : suspCounts (textClean.toList.map Char.toLower) = [0, 0, 0, 0, 0, 0, 0] := by
    decide
  have h4 : countMatches urlPat (textClean.toList.map Char.toLower) = 0 := by decide
  have h5 : varianceHigh textClean.toList = false := by decide
  have h6 : phraseTotal (textClean.toList.map Char.toLower) = 0 := by decide
  have h7 : ¬ 5 < longLineCount textClean.toList := by decide
  exact ⟨⟨h1, h2, h3, h4, h5, h6, h7⟩,
    scorer_failure_value_indistinguishable textClean.toList h1 h2 h3 h4 h5 h6 h7⟩

end Acad

namespace Acad

/-- Helper: the 4-decimal rounding of a similarity above 0.75 is at least
3/4 (it can equal 3/4 exactly; see the C1 counterexample). -/
theorem roundTo4_ge_threshold {sim : ℝ} (h : (0.75 : ℝ) < sim) :
    (3 / 4 : ℚ) ≤ roundTo4 sim := by
  unfold roundTo4
  rw [le_div_iff₀ (by norm_num : (0 : ℚ) < 10000)]
  have h1 : (7500 : ℝ) ≤ sim * 10000 := by nlinarith
  have h2 : (7500 : ℤ) ≤ round (sim * 10000) := by
    have hf : (7500 : ℤ) ≤ ⌊sim * 10000⌋ := Int.le_floor.mpr (by exact_mod_cast h1)
    have hr : ⌊sim * 10000⌋ ≤ round (sim * 10000) := by
      rw [round_eq]
      exact Int.floor_le_floor (by linarith)
    omega
  calc (3 / 4 : ℚ) * 10000 = ((7500 : ℤ) : ℚ) := by norm_num
    _ ≤ ((round (sim * 10000) : ℤ) : ℚ) := by exact_mod_cast h2

/-- Helper: anatomy of a match produced by the ranking loop body. -/
theorem rankSource_eq_some (d : List ℚ) (s : SourceRow) (m : SimMatch)
    (h : rankSource d s = some m) :
    ∃ e, s.embedding = some e ∧ ∃ sim : ℝ,
      cosineSimilarity (some d) (some e) = .ok sim ∧ (0.75 : ℝ) < sim ∧
      m.similarity = roundTo4 sim := by
  unfold rankSource at h
  split at h
  · exact absurd h (by simp)
  next e hE =>
    split at h
    · exact absurd h (by simp)
    next sim hC =>
      split at h
      · injection h with h2
        exact ⟨e, hE, sim, hC, by assumption, by rw [← h2]⟩
      · exact absurd h (by simp)

/-- C1 (amended): every ranked match stems from a source whose stored
embedding parsed and whose unrounded similarity strictly exceeds 0.75; the
stored similarity is the 4-decimal rounding of it, hence at least 3/4 (but
possibly exactly 3/4, so not strictly above the threshold); the output is
sorted descending by stored similarity; at most 5 matches are persisted;
and a record with an unparsable embedding is skipped without affecting the
rest of the batch. -/
theorem rankSources_spec (d : List ℚ) (c₁ c₂ : List SourceRow) (bad : SourceRow)
    (hbad : bad.embedding = none) :
    (∀ m ∈ rankSources d (c₁ ++ bad :: c₂),
      (3 / 4 : ℚ) ≤ m.similarity ∧
      ∃ s ∈ c₁ ++ bad :: c₂, ∃ e, s.embedding = some e ∧ ∃ sim : ℝ,
        cosineSimilarity (some d) (some e) = .ok sim ∧ (0.75 : ℝ) < sim ∧
        m.similarity = roundTo4 sim) ∧
    (rankSources d (c₁ ++ bad :: c₂)).Pairwise
      (fun x y => y.similarity ≤ x.similarity) ∧
    (suggestedSources d (c₁ ++ bad :: c₂)).length ≤ 5 ∧
    rankSources d (c₁ ++ bad :: c₂) = rankSources d (c₁ ++ c₂) := by
  refine ⟨?_, ?_, ?_, ?_⟩
  · intro m hm
    have hm' : m ∈ (c₁ ++ bad :: c₂).filterMap (rankSource d) :=
      List.mem_mergeSort.mp hm
    obtain ⟨s, hs, hr⟩ := List.mem_filterMap.mp hm'
    obtain ⟨e, hE, sim, hC, h75, hround⟩ := rankSource_eq_some d s m hr
    exact ⟨hround ▸ roundTo4_ge_threshold h75, s, hs, e, hE, sim, hC, h75, hround⟩
  · have hs : (List.mergeSort ((c₁ ++ bad :: c₂).filterMap (rankSource d))
        (fun x y : SimMatch => decide (y.similarity ≤ x.similarity))).Pairwise
        (fun x y : SimMatch => decide (y.similarity ≤ x.similarity) = true) := by
      apply List.sorted_mergeSort
      · intro a b c hab hbc
        simp only [decide_eq_true_eq] at hab hbc ⊢
        exact le_trans hbc hab
      · intro a b
        simp only [Bool.or_eq_true, decide_eq_true_eq]
        exact le_total b.similarity a.similarity
    exact hs.imp (fun h => of_decide_eq_true h)
  · exact List.length_take_le _ _
  · unfold rankSources
    congr 1
    rw [List.filterMap_append, List.filterMap_append,
      List.filterMap_cons_none (by unfold rankSource; rw [hbad])]

/-- Witness for `rankSources_spec`. -/
theorem rankSources_spec_witness :
    corruptRow.embedding = none ∧
    rankSources docEmbed ([] ++ corruptRow :: []) = rankSources docEmbed ([] ++ []) :=
  ⟨rfl, (rankSources_spec docEmbed [] [] corruptRow rfl).2.2.2⟩

end Acad

namespace Acad

/-- C1 counterexample: `borderRow` has unrounded similarity
`13825/18433 ≈ 0.7500136 > 0.75` with `docEmbed`, so it passes the filter,
but the persisted match stores `parseFloat(toFixed(4)) = 0.75` — the
output similarity is not strictly greater than the threshold. -/
theorem stored_similarity_equals_threshold :
    suggestedSources docEmbed [borderRow] =
      [{ id := 1, title := "T", authors := "A", similarity := 3 / 4,
         abstract := "B" }] ∧
    ¬ ((3 / 4 : ℚ) > 3 / 4) := by
  constructor
  · have hloop : cosineLoop docEmbed [13825, 12192] =
        (13825, 1, 339775489) := by
      norm_num [docEmbed, cosineLoop]
    have hcs : cosineSimilarity (some docEmbed) (some [13825, 12192]) =
        .ok ((13825 : ℝ) / 18433) := by
      rw [cosineSimilarity_eq_of_good docEmbed [13825, 12192] rfl
        (by simp [docEmbed]), hloop]
      rw [if_neg (by norm_num)]
      have h1 : Real.sqrt (((1 : ℚ) : ℝ)) = 1 := by
        rw [show ((1 : ℚ) : ℝ) = 1 by norm_num]
        exact Real.sqrt_one
      have h2 : Real.sqrt (((339775489 : ℚ) : ℝ)) = 18433 := by
        rw [show ((339775489 : ℚ) : ℝ) = (18433 : ℝ) ^ 2 by norm_num]
        exact Real.sqrt_sq (by norm_num)
      rw [h1, h2]
      norm_num
    have hround : roundTo4 ((13825 : ℝ) / 18433) = 3 / 4 := by
      unfold roundTo4
      have hcast : (13825 : ℝ) / 18433 * 10000 =
          ((138250000 / 18433 : ℚ) : ℝ) := by
        push_cast
        ring
      rw [hcast, Rat.round_cast]
      have hr : round ((138250000 : ℚ) / 18433) = 7500 := by
        rw [round_eq, Int.floor_eq_iff]
        constructor
        · norm_num
        · norm_num
      rw [hr]
      norm_num
    have hrank : rankSource docEmbed borderRow =
        some { id := 1, title := "T", authors := "A", similarity := 3 / 4,
               abstract := "B" } := by
      unfold rankSource borderRow
      simp only [hcs]
      rw [if_pos (by norm_num), hround]
    unfold suggestedSources rankSources
    rw [List.filterMap_cons_some hrank, List.filterMap_nil,
      List.mergeSort_singleton]
    rfl
  · exact lt_irrefl (3 / 4 : ℚ)

end Acad

namespace Acad

/-- Helper: cast an integer sum over a mapped list into `ℚ`. -/
theorem intSum_cast (f : Nat → Int) : ∀ lens : List Nat,
    (((lens.map f).sum : Int) : ℚ) = (lens.map (fun l : Nat => ((f l : Int) : ℚ))).sum
  | [] => by simp
  | a :: as => by
    simp only [List.map_cons, List.sum_cons, Int.cast_add]
    rw [intSum_cast f as]

/-- Helper: pull a common square denominator out of a mapped sum. -/
theorem sq_div_sum (c : ℚ) (g : Nat → ℚ) : ∀ lens : List Nat,
    (lens.map (fun l : Nat => (g l / c) ^ 2)).sum =
      (lens.map (fun l : Nat => g l ^ 2)).sum / c ^ 2
  | [] => by simp
  | a :: as => by
    simp only [List.map_cons, List.sum_cons, sq_div_sum c g as]
    rw [div_pow, add_div]

/-- The integer test in `varianceExceeds` agrees exactly with the rational
population variance computed by `varianceOf`. -/
theorem varianceExceeds_iff (lens : List Nat) (h : lens ≠ []) :
    varianceExceeds lens = true ↔ 500 < varianceOf lens := by
  have hn : 0 < lens.length := List.length_pos.mpr h
  have hnQ : (0 : ℚ) < (lens.length : ℚ) := by exact_mod_cast hn
  have hS : (((lens.map (fun l : Nat => (l : Int))).sum : Int) : ℚ) =
      (lens.map (fun l : Nat => (l : ℚ))).sum := by
    rw [intSum_cast]
    push_cast
    rfl
  have hmap : lens.map (fun l : Nat => ((l : ℚ) -
        (lens.map (fun l : Nat => (l : ℚ))).sum / (lens.length : ℚ)) ^ 2) =
      lens.map (fun l : Nat => (((lens.length : ℚ) * (l : ℚ) -
        (lens.map (fun l : Nat => (l : ℚ))).sum) / (lens.length : ℚ)) ^ 2) := by
    refine List.map_congr_left (fun a ha => ?_)
    congr 1
    field_simp
    ring
  have hcastsum : (((lens.map (fun l : Nat => ((lens.length : Int) * (l : Int) -
        (lens.map (fun l : Nat => (l : Int))).sum) * ((lens.length : Int) * (l : Int) -
        (lens.map (fun l : Nat => (l : Int))).sum))).sum : Int) : ℚ) =
      (lens.map (fun l : Nat => ((lens.length : ℚ) * (l : ℚ) -
        (lens.map (fun l : Nat => (l : ℚ))).sum) ^ 2)).sum := by
    rw [intSum_cast]
    refine congrArg List.sum (List.map_congr_left (fun a ha => ?_))
    push_cast [hS]
    ring
  have hvar : varianceOf lens =
      ((((lens.map (fun l : Nat => ((lens.length : Int) * (l : Int) -
        (lens.map (fun l : Nat => (l : Int))).sum) * ((lens.length : Int) * (l : Int) -
        (lens.map (fun l : Nat => (l : Int))).sum))).sum : Int) : ℚ)) /
        ((lens.length : ℚ)) ^ 3 := by
    simp only [varianceOf]
    rw [hmap, sq_div_sum ((lens.length : ℚ))
      (fun l : Nat => (lens.length : ℚ) * (l : ℚ) -
        (lens.map (fun l : Nat => (l : ℚ))).sum) lens]
    rw [div_div, hcastsum]
    congr 1
    ring
  unfold varianceExceeds
  rw [decide_eq_true_eq, hvar, lt_div_iff₀ (by positivity)]
  rw [show (500 : ℚ) * ((lens.length : ℚ)) ^ 3 =
      (((500 * ((lens.length : Int) * (lens.length : Int) * (lens.length : Int))) :
        Int) : ℚ) from by push_cast; ring]
  exact Iff.symm Int.cast_lt

end Acad
